import Mathlib

/-
Verification of the per-turn decision engine in
`python-algo/algo_strategy.py` (a Terminal tower-defense algo).

The engine's own logic is embedded faithfully from the source file.  The
Battlefield Interface (the `gamelib` host library: legality checks,
resource reads, pathing estimates) is outside the source tree and is,
per the design document, an external collaborator; its queries are
modelled from the spec as oracles carried in the state.  Helper methods
that the source calls but never defines (`stall_with_interceptors`,
`demolisher_line_strategy`, `least_damage_spawn_location`,
`detect_enemy_unit`) are modelled from the spec and documented as such.
-/

set_option linter.unusedVariables false

/-- The six unit kinds read from the configuration at match start
(`WALL`, `SUPPORT`, `TURRET`, `SCOUT`, `DEMOLISHER`, `INTERCEPTOR`). -/
inductive UnitKind where
  | WALL
  | SUPPORT
  | TURRET
  | SCOUT
  | DEMOLISHER
  | INTERCEPTOR
deriving DecidableEq, Repr

/-- A grid cell `[x, y]` of the arena. -/
abbrev Coord : Type := Int × Int

/-- A requested action handed to the Battlefield Interface: either a
spawn attempt (`attempt_spawn(kind, location, num)`, `num` defaulting
to 1) or an upgrade attempt (`attempt_upgrade(kind, location)`).
Legality adjudication is the interface's business; the engine's output
is the ordered list of these intents. -/
inductive Intent where
  | spawn (kind : UnitKind) (loc : Coord) (num : Nat)
  | upgrade (kind : UnitKind) (loc : Coord)
deriving DecidableEq, Repr

/-- The unit kind an intent concerns. -/
def Intent.kind : Intent → UnitKind
  | .spawn k _ _ => k
  | .upgrade k _ => k

/-- The coordinate an intent targets. -/
def Intent.loc : Intent → Coord
  | .spawn _ c _ => c
  | .upgrade _ c => c

/-- Whether an intent is an upgrade intent. -/
def Intent.isUpgrade : Intent → Bool
  | .upgrade _ _ => true
  | _ => false

/-- One turn's snapshot together with the Battlefield Interface oracles
the engine queries on it.  `sp` is the structure-currency balance read
by `get_resources(0)`; `occupied` lists the cells currently holding a
stationary unit; `cost` is the configured structure-currency cost per
kind; `enemyFrontDensity` is the count of opposing units in the two
rows nearest the midline; `analyzeEnemyDefences` and `pathDamage` are
the interface's strength and path-damage estimators; and
`scored_on_locations` is the History Tracker state accumulated from
action frames. -/
structure GameState where
  turn_number : Nat
  sp : Int
  cost : UnitKind → Int
  occupied : List Coord
  enemyFrontDensity : Nat
  analyzeEnemyDefences : Coord → Int
  pathDamage : Coord → Int
  scored_on_locations : List Coord

/-- Modelled from the spec: the Battlefield Interface legality
pre-check `can_spawn(kind, coordinate)` (the interface itself is
outside the source tree).  Per the spec a placement is legal when the
cell is affordable and not already occupied; every coordinate this
engine queries is a fixed in-arena cell of its own half, so the bounds
and territory conditions are constant and omitted. -/
def can_spawn (s : GameState) (k : UnitKind) (c : Coord) : Bool :=
  decide (s.cost k ≤ s.sp) && ! s.occupied.contains c

/-- Modelled from the spec: `detect_enemy_unit(game_state, None, None,
valid_y=[14, 15])` is called by `starter_strategy` but absent from the
source tree; per the spec it counts opposing units in the two rows
nearest the midline, carried here as the `enemyFrontDensity` signal. -/
def detect_enemy_unit (s : GameState) : Nat :=
  s.enemyFrontDensity

/-- Python's `range(a, b)` over integers. -/
def pyRange (a b : Int) : List Int :=
  (List.range (b - a).toNat).map (fun k => a + (k : Int))

/-- Python list subscription by a tuple, as in `[19, 13][20, 13]`:
list indices must be integers or slices, so this raises `TypeError`
unconditionally, whatever the list and the tuple. -/
def pyListIndexTuple (xs : List Int) (ij : Int × Int) : Except String Int :=
  Except.error "TypeError: list indices must be integers or slices, not tuple"

/-- The wall-location literal of `build_defences` (source line 149).
Between `[19, 13]` and `[20, 13]` the comma is missing, so Python
parses the juxtaposition as the two-element list `[19, 13]` subscripted
by the tuple `(20, 13)`, and evaluating the literal raises `TypeError`.
The remaining elements of the literal are listed for reference; the
value is never produced. -/
def wall_locations : Except String (List Coord) := do
  let _ ← pyListIndexTuple [19, 13] (20, 13)
  pure [(5, 13), (6, 13), (7, 13), (8, 13), (9, 13), (18, 13), (21, 13), (22, 13)]

/-- `build_defences` (source lines 135-158): spawn the two baseline
turrets, then evaluate the wall-location literal (which raises, see
`wall_locations`), then spawn the walls and the flank-chosen support.
The flank comparison queries `analyze_enemy_defences` at `[1, 11]` and
`[22, 11]`. -/
def build_defences (s : GameState) : Except String (List Intent) := do
  let turret_locations : List Coord := [(11, 11), (16, 11)]
  let turretIntents := turret_locations.map (fun c => Intent.spawn UnitKind.TURRET c 1)
  let wl ← wall_locations
  let wallIntents := wl.map (fun c => Intent.spawn UnitKind.WALL c 1)
  let support_location : List Coord :=
    if s.analyzeEnemyDefences (1, 11) < s.analyzeEnemyDefences (22, 11)
    then [(3, 11)] else [(24, 11)]
  pure (turretIntents ++ wallIntents
    ++ support_location.map (fun c => Intent.spawn UnitKind.SUPPORT c 1))

/-- `build_reactive_defense` (source lines 160-169): for each recorded
scored-on location, spawn a turret at `[location[0] + 2,
location[1] + 2]`.  Embedded as the source's loop over the accumulated
history, appending one intent per iteration. -/
def build_reactive_defense (s : GameState) : List Intent :=
  s.scored_on_locations.foldl
    (fun acc location =>
      acc ++ [Intent.spawn UnitKind.TURRET (location.1 + 2, location.2 + 2) 1])
    []

/-- The wall row-range fills of `update_defence` (source lines 179-184
and 200-205, identical in both regimes): for `i` in `range(1, 10)` and
then `range(17, 27)`, spawn a wall at `[i, 13]` when `can_spawn` at
`[i, 13]` succeeds. -/
def wall_fill (s : GameState) : List Intent :=
  (pyRange 1 10 ++ pyRange 17 27).filterMap (fun i =>
    if can_spawn s UnitKind.WALL (i, 13) then
      some (Intent.spawn UnitKind.WALL (i, 13) 1)
    else none)

/-- The support row-range fills of `update_defence` (source lines
185-190 and 206-211, identical in both regimes): for `i` in
`range(1, 4)` and then `range(24, 27)`, the source checks `can_spawn`
at `[i, 12]` but issues the spawn at `[i, 13]` — the check coordinate
and the act coordinate differ by one row, exactly as written. -/
def support_fill (s : GameState) : List Intent :=
  (pyRange 1 4 ++ pyRange 24 27).filterMap (fun i =>
    if can_spawn s UnitKind.SUPPORT (i, 12) then
      some (Intent.spawn UnitKind.SUPPORT (i, 13) 1)
    else none)

/-- `update_defence` (source lines 171-211).  Scarce regime
(`structPoints < 12`): two guarded turret spawn attempts — the first
checks and spawns at `[12, 11]`; the second checks `[15, 11]` but
spawns at `[12, 11]`, exactly as the source does on line 178 — then the
wall and support fills.  Sufficient regime: for each designated turret
cell, spawn when `can_spawn` succeeds there, otherwise upgrade that
cell; then the same fills. -/
def update_defence (s : GameState) : List Intent :=
  if s.sp < 12 then
    (if can_spawn s UnitKind.TURRET (12, 11) then
      [Intent.spawn UnitKind.TURRET (12, 11) 1] else [])
    ++ (if can_spawn s UnitKind.TURRET (15, 11) then
      [Intent.spawn UnitKind.TURRET (12, 11) 1] else [])
    ++ wall_fill s ++ support_fill s
  else
    (if can_spawn s UnitKind.TURRET (12, 11) then
      [Intent.spawn UnitKind.TURRET (12, 11) 1]
    else [Intent.upgrade UnitKind.TURRET (12, 11)])
    ++ (if can_spawn s UnitKind.TURRET (15, 11) then
      [Intent.spawn UnitKind.TURRET (15, 11) 1]
    else [Intent.upgrade UnitKind.TURRET (15, 11)])
    ++ wall_fill s ++ support_fill s

/-- Modelled from the spec: the two designated early-game spawn points
the interceptor stall draws from.  The spec fixes that there are two of
them but not their coordinates; following the engine's back-corner
spawn convention we take the two back-corner edge cells. -/
def early_spawn_locations : List Coord := [(13, 0), (14, 0)]

/-- Modelled from the spec: `stall_with_interceptors` is called by
`starter_strategy` but never defined in the source tree.  Per the spec
it issues a stream of the disposable fast-mobile unit kind
(Interceptor) from one of the designated spawn points, count
unbounded; we issue one unbounded-count spawn intent from the first
designated point. -/
def stall_with_interceptors (s : GameState) : List Intent :=
  [Intent.spawn UnitKind.INTERCEPTOR (13, 0) 1000]

/-- Modelled from the spec: `demolisher_line_strategy` is called by
`starter_strategy` but never defined in the source tree.  Per the spec
it commits to a long-range assault placing the heavy mobile unit kind
(Demolisher) along a line formation; only the unit kind matters to the
claims, the coordinate is representative. -/
def demolisher_line_strategy (s : GameState) : List Intent :=
  [Intent.spawn UnitKind.DEMOLISHER (24, 10) 1000]

/-- Modelled from the spec: `least_damage_spawn_location` is called by
`starter_strategy` but never defined in the source tree.  Per the spec
it asks the Battlefield Interface for the cumulative damage a mobile
unit would absorb from each candidate spawn and returns the
minimum-damage candidate (the first one on ties). -/
def least_damage_spawn_location (s : GameState) (options : List Coord) : Coord :=
  match options with
  | [] => (0, 0)
  | o :: rest =>
      rest.foldl (fun best c => if s.pathDamage c < s.pathDamage best then c else best) o

/-- The fixed mid-board support coordinates of the rush branch
(source line 103). -/
def support_locations : List Coord := [(13, 2), (14, 2), (13, 3), (14, 3)]

/-- The Offense Planner: the tail of `starter_strategy` (source lines
83-104).  Turn number below 5: the interceptor stall.  Otherwise, if
the enemy front-row density exceeds 10, the demolisher line; otherwise
on odd turns a maximum-count Scout spawn at the least-damage candidate
of `[[13, 0], [14, 0]]`, and in either parity the spare-SP support
spawns. -/
def offense_planner (s : GameState) : List Intent :=
  if s.turn_number < 5 then
    stall_with_interceptors s
  else if detect_enemy_unit s > 10 then
    demolisher_line_strategy s
  else
    (if s.turn_number % 2 = 1 then
      [Intent.spawn UnitKind.SCOUT (least_damage_spawn_location s [(13, 0), (14, 0)]) 1000]
    else [])
    ++ support_locations.map (fun c => Intent.spawn UnitKind.SUPPORT c 1)

/-- `starter_strategy` (source lines 69-104): defense, reactive
defense, resource-driven update, then the offense branch.  The source
invokes these as `self.build_defences` etc. although `AlgoStrategy`
never defines them — the `Defence` class holding their bodies sits
inside the main guard after `algo.start()` and is never attached to the
strategy object; we bind the calls to those bodies, the only
definitions present in the file and the reading most favourable to the
design document. -/
def starter_strategy (s : GameState) : Except String (List Intent) := do
  let d ← build_defences s
  let r := build_reactive_defense s
  let u := update_defence s
  let o := offense_planner s
  pure (d ++ r ++ u ++ o)

/-- `on_turn` (source lines 47-61): run `starter_strategy` on the
turn's snapshot and submit the accumulated intent list; an error value
means the pass raised and nothing was submitted. -/
def on_turn (s : GameState) : Except String (List Intent) :=
  starter_strategy s

/-- A JSON value, the shape of an action-frame payload. -/
inductive Json where
  | null
  | num (n : Int)
  | str (s : String)
  | arr (xs : List Json)
  | obj (fields : List (String × Json))

/-- Python `value[key]` on a parsed JSON object: `KeyError` when the
key is absent, `TypeError` when the value is not an object. -/
def jsonGetKey (j : Json) (k : String) : Except String Json :=
  match j with
  | .obj fields =>
      match fields.lookup k with
      | some v => Except.ok v
      | none => Except.error "KeyError"
  | _ => Except.error "TypeError"

/-- Python `value[i]` on a parsed JSON value: `IndexError` past the
end of a list, `TypeError` when the value is not a list. -/
def jsonIndexNat (j : Json) (i : Nat) : Except String Json :=
  match j with
  | .arr xs =>
      match xs.get? i with
      | some v => Except.ok v
      | none => Except.error "IndexError"
  | _ => Except.error "TypeError"

/-- Python `value == 1` on a parsed JSON value: a non-error comparison
that is true exactly for the number 1. -/
def jsonEqNum (j : Json) (n : Int) : Bool :=
  match j with
  | .num m => m == n
  | _ => false

/-- One iteration of the breach loop of `on_action_frame` (source
lines 117-125): read `breach[0]` (the location) and `breach[4]` (the
owner flag, 1 for self, 2 for the opponent), and append the raw
location value to `scored_on_locations` when the owner is not self. -/
def record_breach (tracker : List Json) (breach : Json) : Except String (List Json) :=
  match jsonIndexNat breach 0 with
  | Except.error e => Except.error e
  | Except.ok location =>
      match jsonIndexNat breach 4 with
      | Except.error e => Except.error e
      | Except.ok owner =>
          if jsonEqNum owner 1 then Except.ok tracker
          else Except.ok (tracker ++ [location])

/-- The breach loop of `on_action_frame`.  The tracker is mutated in
place by the source, so when an iteration raises, the appends of the
earlier iterations persist: the result pairs the tracker state at the
moment of the raise with the exception, if any. -/
def record_breaches : List Json → List Json → List Json × Option String
  | tracker, [] => (tracker, none)
  | tracker, b :: bs =>
      match record_breach tracker b with
      | Except.ok t => record_breaches t bs
      | Except.error e => (tracker, some e)

/-- `on_action_frame` (source lines 106-125): parse the frame, read
`state["events"]` and `events["breach"]`, then run the breach loop.
The source installs no handler, so any lookup failure raises out of
the frame's processing; the result pairs the tracker state with the
exception, if any. -/
def on_action_frame (tracker : List Json) (turn_string : Json) : List Json × Option String :=
  match jsonGetKey turn_string "events" with
  | Except.error e => (tracker, some e)
  | Except.ok events =>
      match jsonGetKey events "breach" with
      | Except.error e => (tracker, some e)
      | Except.ok (Json.arr bs) => record_breaches tracker bs
      | Except.ok _ => (tracker, some "TypeError")

/-- Sequential delivery of action frames: each frame is processed
against the tracker left by the previous one, stopping at the first
frame whose processing raises. -/
def processFrames : List Json → List Json → List Json × Option String
  | tracker, [] => (tracker, none)
  | tracker, f :: fs =>
      match on_action_frame tracker f with
      | (t, none) => processFrames t fs
      | (t, some e) => (t, some e)

/-- A well-formed breach event: a coordinate and the owner flag as the
frame data encodes it (1 for self, 2 for the opponent). -/
structure BreachEvent where
  x : Int
  y : Int
  owner : Int
deriving DecidableEq, Repr

/-- The location field of an encoded breach entry. -/
def encodeLoc (b : BreachEvent) : Json :=
  Json.arr [Json.num b.x, Json.num b.y]

/-- A breach entry as the frame data carries it:
`[location, damage, unit-type, unit-id, owner]` — the engine reads
indices 0 and 4. -/
def encodeBreach (b : BreachEvent) : Json :=
  Json.arr [encodeLoc b, Json.num 0, Json.num 3, Json.num 0, Json.num b.owner]

/-- A well-formed action-frame payload whose breach list encodes the
given events. -/
def encodeFrame (bs : List BreachEvent) : Json :=
  Json.obj [("events", Json.obj [("breach", Json.arr (bs.map encodeBreach))])]

/-- An action-frame payload whose breach list holds the given raw
entries, for malformed-entry scenarios. -/
def rawFrame (entries : List Json) : Json :=
  Json.obj [("events", Json.obj [("breach", Json.arr entries)])]

/-- A scarce-regime snapshot: structure currency 5, every queried cell
free and affordable. -/
def scarceState : GameState :=
  { turn_number := 2, sp := 5, cost := fun _ => 2, occupied := [],
    enemyFrontDensity := 0, analyzeEnemyDefences := fun _ => 0,
    pathDamage := fun _ => 0, scored_on_locations := [] }

/-- A sufficient-regime snapshot with both designated turret cells
already occupied. -/
def occupiedState : GameState :=
  { turn_number := 6, sp := 20, cost := fun _ => 2,
    occupied := [(12, 11), (15, 11)],
    enemyFrontDensity := 0, analyzeEnemyDefences := fun _ => 0,
    pathDamage := fun _ => 0, scored_on_locations := [] }

/-- A sufficient-regime snapshot (balance exactly 12) where the
configured unit cost exceeds the balance, so every `can_spawn` check
fails on affordability while every cell is unoccupied. -/
def unaffordableState : GameState :=
  { turn_number := 6, sp := 12, cost := fun _ => 100, occupied := [],
    enemyFrontDensity := 0, analyzeEnemyDefences := fun _ => 0,
    pathDamage := fun _ => 0, scored_on_locations := [] }

/-- A scarce-regime snapshot where the support act-cell `[1, 13]` is
occupied but the support check-cell `[1, 12]` is free. -/
def mismatchState : GameState :=
  { turn_number := 2, sp := 5, cost := fun _ => 2, occupied := [(1, 13)],
    enemyFrontDensity := 0, analyzeEnemyDefences := fun _ => 0,
    pathDamage := fun _ => 0, scored_on_locations := [] }

/-- An early-game snapshot, turn number 3. -/
def earlyState : GameState :=
  { turn_number := 3, sp := 5, cost := fun _ => 2, occupied := [],
    enemyFrontDensity := 0, analyzeEnemyDefences := fun _ => 0,
    pathDamage := fun _ => 0, scored_on_locations := [] }

/-- An odd mid-game snapshot, turn number 7, enemy front density 3,
with the second rush candidate `[14, 0]` the cheaper path. -/
def rushState : GameState :=
  { turn_number := 7, sp := 5, cost := fun _ => 2, occupied := [],
    enemyFrontDensity := 3, analyzeEnemyDefences := fun _ => 0,
    pathDamage := fun c => if c = ((14 : Int), (0 : Int)) then 2 else 5,
    scored_on_locations := [] }

/-- Two action frames of breach events: an opponent-owned breach at
`[1, 12]`, a self-owned one at `[5, 7]`, then a repeat opponent-owned
breach at `[1, 12]` in a later frame. -/
def sampleFrames : List (List BreachEvent) :=
  [[⟨1, 12, 2⟩, ⟨5, 7, 1⟩], [⟨1, 12, 2⟩]]

theorem foldl_append_singleton {α β : Type} (f : α → β) (l : List α) :
    ∀ acc : List β, l.foldl (fun a x => a ++ [f x]) acc = acc ++ l.map f := by
  induction l with
  | nil => intro acc; simp
  | cons x xs ih => intro acc; simp [ih]

theorem mem_wall_fill {s : GameState} {x : Intent} (hx : x ∈ wall_fill s) :
    ∃ i : Int, x = Intent.spawn UnitKind.WALL (i, 13) 1 := by
  unfold wall_fill at hx
  rcases List.mem_filterMap.mp hx with ⟨i, hi, hf⟩
  by_cases h : can_spawn s UnitKind.WALL (i, 13) = true
  · rw [if_pos h] at hf
    exact ⟨i, (Option.some.inj hf).symm⟩
  · rw [if_neg h] at hf
    cases hf

theorem mem_support_fill {s : GameState} {x : Intent} (hx : x ∈ support_fill s) :
    ∃ i : Int, x = Intent.spawn UnitKind.SUPPORT (i, 13) 1 := by
  unfold support_fill at hx
  rcases List.mem_filterMap.mp hx with ⟨i, hi, hf⟩
  by_cases h : can_spawn s UnitKind.SUPPORT (i, 12) = true
  · rw [if_pos h] at hf
    exact ⟨i, (Option.some.inj hf).symm⟩
  · rw [if_neg h] at hf
    cases hf

theorem upgrade_not_mem_wall_fill (s : GameState) (k : UnitKind) (c : Coord) :
    Intent.upgrade k c ∉ wall_fill s := by
  intro h
  obtain ⟨i, he⟩ := mem_wall_fill h
  exact Intent.noConfusion he

theorem upgrade_not_mem_support_fill (s : GameState) (k : UnitKind) (c : Coord) :
    Intent.upgrade k c ∉ support_fill s := by
  intro h
  obtain ⟨i, he⟩ := mem_support_fill h
  exact Intent.noConfusion he

theorem wall_fill_filter_isUpgrade (s : GameState) :
    (wall_fill s).filter Intent.isUpgrade = [] := by
  rw [List.filter_eq_nil_iff]
  intro x hx
  obtain ⟨i, rfl⟩ := mem_wall_fill hx
  simp [Intent.isUpgrade]

theorem support_fill_filter_isUpgrade (s : GameState) :
    (support_fill s).filter Intent.isUpgrade = [] := by
  rw [List.filter_eq_nil_iff]
  intro x hx
  obtain ⟨i, rfl⟩ := mem_support_fill hx
  simp [Intent.isUpgrade]

/-- C1: the claim says every turn's decision pass completes and
submits its intent list with no escaping exception.  The code refutes
the claim on every snapshot: `starter_strategy` enters
`build_defences`, whose wall-location literal `[19, 13] [20, 13]`
(missing comma, source line 149) raises `TypeError`, so `on_turn`
raises before `submit_turn` on every turn — and in the source as
shipped the pass cannot even reach that point, since
`self.build_defences` is not an attribute of `AlgoStrategy` at all. -/
theorem turn_decision_pass_always_raises (s : GameState) :
    on_turn s = Except.error "TypeError: list indices must be integers or slices, not tuple" :=
  rfl

/-- C3: evaluation of the scarce regime (`sp = 5 < 12`, all cells free
and affordable).  The pre-check at the second designated turret cell
`[15, 11]` succeeds, yet the intent list contains the `[12, 11]` spawn
twice and no intent at `[15, 11]` at all (source line 178 spawns at
`[12, 11]` after checking `[15, 11]`); the claim's only-placements
half does hold — no upgrade intent is issued. -/
theorem scarce_regime_eval :
    scarceState.sp < 12
      ∧ can_spawn scarceState UnitKind.TURRET (15, 11) = true
      ∧ (update_defence scarceState).count (Intent.spawn UnitKind.TURRET (12, 11) 1) = 2
      ∧ (∀ i ∈ update_defence scarceState, Intent.loc i ≠ (15, 11))
      ∧ ∀ i ∈ update_defence scarceState, Intent.isUpgrade i = false := by
  decide

/-- C4: whenever the structure balance is at least 12 and both
designated turret cells are occupied, the Resource Policy issues
exactly the two upgrade intents (one per designated cell, in order)
and no placement intent targeting either cell. -/
theorem sufficient_occupied_two_upgrades (s : GameState)
    (hsp : 12 ≤ s.sp)
    (h1 : s.occupied.contains ((12 : Int), (11 : Int)) = true)
    (h2 : s.occupied.contains ((15 : Int), (11 : Int)) = true) :
    (update_defence s).filter Intent.isUpgrade
        = [Intent.upgrade UnitKind.TURRET (12, 11), Intent.upgrade UnitKind.TURRET (15, 11)]
      ∧ ∀ i ∈ update_defence s, Intent.isUpgrade i = false →
          Intent.loc i ≠ (12, 11) ∧ Intent.loc i ≠ (15, 11) := by
  have hm1 : ((12 : Int), (11 : Int)) ∈ s.occupied := by simpa using h1
  have hm2 : ((15 : Int), (11 : Int)) ∈ s.occupied := by simpa using h2
  have hc1 : can_spawn s UnitKind.TURRET (12, 11) = false := by
    simp [can_spawn, hm1]
  have hc2 : can_spawn s UnitKind.TURRET (15, 11) = false := by
    simp [can_spawn, hm2]
  have hud : update_defence s
      = Intent.upgrade UnitKind.TURRET (12, 11) :: Intent.upgrade UnitKind.TURRET (15, 11)
          :: (wall_fill s ++ support_fill s) := by
    simp [update_defence, hc1, hc2, not_lt.mpr hsp]
  constructor
  · rw [hud]
    simp [List.filter_append, wall_fill_filter_isUpgrade, support_fill_filter_isUpgrade,
      Intent.isUpgrade]
  · intro i hi hno
    rw [hud] at hi
    simp only [List.mem_cons, List.mem_append] at hi
    rcases hi with rfl | rfl | hi | hi
    · simp [Intent.isUpgrade] at hno
    · simp [Intent.isUpgrade] at hno
    · obtain ⟨j, rfl⟩ := mem_wall_fill hi
      constructor <;> · intro he; simp [Intent.loc, Prod.ext_iff] at he
    · obtain ⟨j, rfl⟩ := mem_support_fill hi
      constructor <;> · intro he; simp [Intent.loc, Prod.ext_iff] at he

/-- C4 witness: at the concrete occupied sufficient-regime snapshot
the upgrade intents are exactly the two designated-cell upgrades. -/
theorem sufficient_occupied_two_upgrades_witness :
    (update_defence occupiedState).filter Intent.isUpgrade
      = [Intent.upgrade UnitKind.TURRET (12, 11), Intent.upgrade UnitKind.TURRET (15, 11)] :=
  (sufficient_occupied_two_upgrades occupiedState (by decide) (by decide) (by decide)).1

/-- C5 counterexample: at a sufficient-regime snapshot (balance 12)
where the designated cell `[12, 11]` is unoccupied and the placement is
illegal only through unaffordability (configured cost 100), the code
still issues the upgrade intent — refuting the claim that no upgrade
intent is issued when placement fails for resources alone. -/
theorem upgrade_issued_when_unaffordable_cx :
    unaffordableState.occupied.contains ((12 : Int), (11 : Int)) = false
      ∧ 12 ≤ unaffordableState.sp
      ∧ can_spawn unaffordableState UnitKind.TURRET (12, 11) = false
      ∧ Intent.upgrade UnitKind.TURRET (12, 11) ∈ update_defence unaffordableState := by
  decide

/-- C5 amended: in the sufficient-resource regime the upgrade intent
for a designated turret cell is issued exactly when the `can_spawn`
pre-check fails there — whatever the reason, occupancy or
unaffordability; the code does not distinguish the failure cause. -/
theorem upgrade_iff_precheck_fails (s : GameState) (hsp : 12 ≤ s.sp) (c : Coord)
    (hc : c = ((12 : Int), (11 : Int)) ∨ c = ((15 : Int), (11 : Int))) :
    (Intent.upgrade UnitKind.TURRET c ∈ update_defence s
      ↔ can_spawn s UnitKind.TURRET c = false) := by
  have hw := upgrade_not_mem_wall_fill s UnitKind.TURRET c
  have hs := upgrade_not_mem_support_fill s UnitKind.TURRET c
  rcases hc with rfl | rfl <;>
    cases hb1 : can_spawn s UnitKind.TURRET (12, 11) <;>
    cases hb2 : can_spawn s UnitKind.TURRET (15, 11) <;>
      simp_all [update_defence, not_lt.mpr hsp, Prod.ext_iff]

/-- C5 witness for the amended claim, instantiated at the
unaffordable snapshot. -/
theorem upgrade_iff_precheck_fails_witness :
    Intent.upgrade UnitKind.TURRET ((12 : Int), (11 : Int)) ∈ update_defence unaffordableState :=
  (upgrade_iff_precheck_fails unaffordableState (by decide) ((12 : Int), (11 : Int))
    (Or.inl rfl)).mpr (by decide)

/-- C6: evaluation of the check/act mismatch in the support fills.  At
a scarce snapshot where the act-cell `[1, 13]` is occupied (its own
pre-check fails) but the check-cell `[1, 12]` is free, the Resource
Policy still issues the support placement at `[1, 13]`, and never
issues one at the checked cell `[1, 12]` — the coordinate passed to the
pre-check is not the coordinate acted on. -/
theorem support_precheck_act_mismatch_eval :
    can_spawn mismatchState UnitKind.SUPPORT (1, 13) = false
      ∧ can_spawn mismatchState UnitKind.SUPPORT (1, 12) = true
      ∧ Intent.spawn UnitKind.SUPPORT (1, 13) 1 ∈ update_defence mismatchState
      ∧ ∀ i ∈ update_defence mismatchState, i ≠ Intent.spawn UnitKind.SUPPORT (1, 12) 1 := by
  decide

/-- C7: the reactive-defense phase issues exactly one turret placement
intent per History Tracker entry — duplicates included, since the loop
maps every entry — and the `k`-th intent targets the `k`-th recorded
breach coordinate offset by +2 columns and +2 rows. -/
theorem reactive_defense_one_turret_per_entry (s : GameState) :
    build_reactive_defense s
        = s.scored_on_locations.map
            (fun l => Intent.spawn UnitKind.TURRET (l.1 + 2, l.2 + 2) 1)
      ∧ (build_reactive_defense s).length = s.scored_on_locations.length := by
  have h := foldl_append_singleton
      (fun l : Coord => Intent.spawn UnitKind.TURRET (l.1 + 2, l.2 + 2) 1)
      s.scored_on_locations []
  have h1 : build_reactive_defense s
      = s.scored_on_locations.map
          (fun l => Intent.spawn UnitKind.TURRET (l.1 + 2, l.2 + 2) 1) := by
    simpa [build_reactive_defense] using h
  exact ⟨h1, by rw [h1, List.length_map]⟩

/-- C8: on every early-game turn (turn number below 5, turn 3 in
particular) the Offense Planner runs the interceptor stall alone: the
output is the stall's fast-disposable-unit spawn intent from one of
the designated early spawn points, every issued intent is an
Interceptor intent, and neither the demolisher branch nor the rush
branch contributes anything. -/
theorem early_game_stall_only (s : GameState) (h : s.turn_number < 5) :
    offense_planner s = stall_with_interceptors s
      ∧ (∃ c ∈ early_spawn_locations,
          offense_planner s = [Intent.spawn UnitKind.INTERCEPTOR c 1000])
      ∧ ∀ i ∈ offense_planner s, Intent.kind i = UnitKind.INTERCEPTOR := by
  have h1 : offense_planner s = stall_with_interceptors s := by
    simp [offense_planner, h]
  refine ⟨h1, ⟨(13, 0), by simp [early_spawn_locations],
    by simp [h1, stall_with_interceptors]⟩, ?_⟩
  intro i hi
  rw [h1] at hi
  simp only [stall_with_interceptors, List.mem_singleton] at hi
  subst hi
  rfl

/-- C8 witness: the turn-3 snapshot is early-game and runs the stall
phase alone. -/
theorem early_game_stall_only_witness :
    earlyState.turn_number < 5
      ∧ offense_planner earlyState = stall_with_interceptors earlyState :=
  ⟨by decide, (early_game_stall_only earlyState (by decide)).1⟩

/-- C9: with turn number at least 5 and enemy front density at most
10, on odd turns the Offense Planner issues the maximum-count Scout
spawn intent at the least-damage candidate — which is one of the two
designated rush spawns `[13, 0]`, `[14, 0]` and attains the minimum of
the two path-damage estimates — while on even turns no Scout spawn
intent is issued at all. -/
theorem rush_parity_and_min_damage (s : GameState)
    (h5 : 5 ≤ s.turn_number) (hd : detect_enemy_unit s ≤ 10) :
    (s.turn_number % 2 = 1 →
        Intent.spawn UnitKind.SCOUT (least_damage_spawn_location s [(13, 0), (14, 0)]) 1000
            ∈ offense_planner s
          ∧ least_damage_spawn_location s [(13, 0), (14, 0)] ∈ [((13 : Int), (0 : Int)), (14, 0)]
          ∧ s.pathDamage (least_damage_spawn_location s [(13, 0), (14, 0)])
              = min (s.pathDamage (13, 0)) (s.pathDamage (14, 0)))
      ∧ (s.turn_number % 2 = 0 →
          ∀ c n, Intent.spawn UnitKind.SCOUT c n ∉ offense_planner s) := by
  have hn5 : ¬ s.turn_number < 5 := not_lt.mpr h5
  have hnd : ¬ detect_enemy_unit s > 10 := not_lt.mpr hd
  have hleast : least_damage_spawn_location s [(13, 0), (14, 0)]
      = if s.pathDamage (14, 0) < s.pathDamage (13, 0) then ((14 : Int), (0 : Int))
        else (13, 0) := rfl
  constructor
  · intro hodd
    have hop : offense_planner s
        = Intent.spawn UnitKind.SCOUT (least_damage_spawn_location s [(13, 0), (14, 0)]) 1000
            :: support_locations.map (fun c => Intent.spawn UnitKind.SUPPORT c 1) := by
      simp [offense_planner, hn5, hnd, hodd]
    refine ⟨by rw [hop]; exact List.mem_cons_self _ _, ?_, ?_⟩
    · rw [hleast]; split <;> simp
    · rw [hleast]; split
      · next hcmp => exact (min_eq_right hcmp.le).symm
      · next hcmp => exact (min_eq_left (not_lt.mp hcmp)).symm
  · intro heven c n hmem
    have hone : ¬ s.turn_number % 2 = 1 := by omega
    have hop : offense_planner s
        = support_locations.map (fun c => Intent.spawn UnitKind.SUPPORT c 1) := by
      simp [offense_planner, hn5, hnd, hone]
    rw [hop] at hmem
    simp [support_locations] at hmem

/-- C9 witness: at the concrete turn-7, density-3 snapshot the rush
intent is issued at the least-damage candidate. -/
theorem rush_parity_and_min_damage_witness :
    5 ≤ rushState.turn_number
      ∧ Intent.spawn UnitKind.SCOUT
            (least_damage_spawn_location rushState [(13, 0), (14, 0)]) 1000
          ∈ offense_planner rushState :=
  ⟨by decide, ((rush_parity_and_min_damage rushState (by decide) (by decide)).1 (by decide)).1⟩

theorem record_breach_encoded_self (t : List Json) (b : BreachEvent) (h : b.owner = 1) :
    record_breach t (encodeBreach b) = Except.ok t := by
  simp [record_breach, encodeBreach, jsonIndexNat, jsonEqNum, h]

theorem record_breach_encoded_opp (t : List Json) (b : BreachEvent) (h : ¬ b.owner = 1) :
    record_breach t (encodeBreach b) = Except.ok (t ++ [encodeLoc b]) := by
  simp [record_breach, encodeBreach, jsonIndexNat, jsonEqNum, h]

theorem record_breaches_encoded (bs : List BreachEvent) :
    ∀ tracker : List Json,
      (∀ b ∈ bs, b.owner = 1 ∨ b.owner = 2) →
      record_breaches tracker (bs.map encodeBreach)
        = (tracker ++ (bs.filter (fun b => b.owner == 2)).map encodeLoc, none) := by
  induction bs with
  | nil => intro tracker h; simp [record_breaches]
  | cons b bs ih =>
      intro tracker h
      by_cases h1 : b.owner = 1
      · have hstep : record_breaches tracker ((b :: bs).map encodeBreach)
            = record_breaches tracker (bs.map encodeBreach) := by
          simp only [List.map_cons, record_breaches, record_breach_encoded_self tracker b h1]
        have hf : (b.owner == 2) = false := by simp [h1]
        rw [hstep, ih tracker (fun x hx => h x (List.mem_cons_of_mem b hx))]
        simp [List.filter_cons, hf]
      · have h2 : b.owner = 2 := ((h b (by simp)).resolve_left h1)
        have hstep : record_breaches tracker ((b :: bs).map encodeBreach)
            = record_breaches (tracker ++ [encodeLoc b]) (bs.map encodeBreach) := by
          simp only [List.map_cons, record_breaches, record_breach_encoded_opp tracker b h1]
        have ht : (b.owner == 2) = true := by simp [h2]
        rw [hstep, ih _ (fun x hx => h x (List.mem_cons_of_mem b hx))]
        simp [List.filter_cons, ht]

theorem processFrames_encoded (frames : List (List BreachEvent)) :
    ∀ tracker : List Json,
      (∀ b ∈ frames.flatten, b.owner = 1 ∨ b.owner = 2) →
      processFrames tracker (frames.map encodeFrame)
        = (tracker ++ ((frames.flatten).filter (fun b => b.owner == 2)).map encodeLoc, none) := by
  induction frames with
  | nil => intro tracker h; simp [processFrames]
  | cons f fs ih =>
      intro tracker h
      have hframe : on_action_frame tracker (encodeFrame f)
          = record_breaches tracker (f.map encodeBreach) := rfl
      have hrec := record_breaches_encoded f tracker
        (fun b hb => h b (by simp [List.mem_flatten]; exact Or.inl hb))
      have hstep : processFrames tracker ((f :: fs).map encodeFrame)
          = processFrames (tracker ++ (f.filter (fun b => b.owner == 2)).map encodeLoc)
              (fs.map encodeFrame) := by
        simp only [List.map_cons, processFrames, hframe, hrec]
      rw [hstep, ih _ (fun b hb => h b (by simp [List.mem_flatten] at hb ⊢; exact Or.inr hb))]
      simp [List.filter_append]

/-- C2: processing any sequence of well-formed breach events delivered
over action frames from an empty History Tracker raises nothing and
leaves the tracker holding exactly the opponent-owned breach locations
in delivery order — its length is the number of opponent-owned events
(duplicates are kept, never deduplicated), and every entry comes from
an opponent-owned event, never a self-owned one. -/
theorem history_tracker_characterization (frames : List (List BreachEvent))
    (h : ∀ b ∈ frames.flatten, b.owner = 1 ∨ b.owner = 2) :
    processFrames [] (frames.map encodeFrame)
        = (((frames.flatten).filter (fun b => b.owner == 2)).map encodeLoc, none)
      ∧ (processFrames [] (frames.map encodeFrame)).1.length
          = ((frames.flatten).filter (fun b => b.owner == 2)).length
      ∧ ∀ j ∈ (processFrames [] (frames.map encodeFrame)).1,
          ∃ b, b ∈ frames.flatten ∧ b.owner = 2 ∧ j = encodeLoc b := by
  have h0 := processFrames_encoded frames [] h
  rw [List.nil_append] at h0
  refine ⟨h0, by rw [h0]; exact List.length_map _ _, ?_⟩
  intro j hj
  rw [h0] at hj
  simp only [List.mem_map, List.mem_filter] at hj
  obtain ⟨b, ⟨hbmem, hb2⟩, rfl⟩ := hj
  exact ⟨b, hbmem, by simpa using hb2, rfl⟩

/-- C2 witness: the sample delivery — opponent breach at `[1, 12]`,
self breach at `[5, 7]`, repeat opponent breach at `[1, 12]` — leaves
the tracker holding the two opponent locations in order. -/
theorem history_tracker_characterization_witness :
    processFrames [] (sampleFrames.map encodeFrame)
      = (((sampleFrames.flatten).filter (fun b => b.owner == 2)).map encodeLoc, none) :=
  (history_tracker_characterization sampleFrames (by decide)).1

/-- C10 counterexample: a frame payload with no `events` key raises
`KeyError` out of the frame's processing instead of being skipped
without raising, refuting the claim as stated. -/
theorem malformed_frame_raises_cx :
    on_action_frame [] (Json.obj []) = ([], some "KeyError") := rfl

/-- C10 amended: a frame payload lacking the expected breach fields —
no `events` key, no `breach` key, or a breach entry without the
coordinate or owner field — raises a lookup error out of that frame's
processing; in each of these shapes the failure precedes any append,
so the History Tracker is returned unchanged by the malformed frame. -/
theorem malformed_frame_raises (tracker : List Json) :
    on_action_frame tracker (Json.obj []) = (tracker, some "KeyError")
      ∧ on_action_frame tracker (Json.obj [("events", Json.obj [])]) = (tracker, some "KeyError")
      ∧ on_action_frame tracker (rawFrame [Json.arr []]) = (tracker, some "IndexError")
      ∧ on_action_frame tracker (rawFrame [Json.arr [Json.arr [Json.num 1, Json.num 2]]])
          = (tracker, some "IndexError") :=
  ⟨rfl, rfl, rfl, rfl⟩
